import Mathlib

/-!
Verification of the ap-nologin media-proxy and content-resolution layer.

The definitions below are a shallow embedding of `src/main.py`:

* `sign_media_url` / `verify_media_signature` (main.py lines 46-55),
  including a byte-level HMAC-SHA256 and URL-safe base64;
* `is_activitypub_content` (lines 69-106);
* `extract_url_from_media_object` (lines 109-118);
* `sign_media_urls_in_content` (lines 121-167);
* the SSRF validation and full check sequence of `proxy_media`
  (lines 467-553), instrumented with an event trace;
* the webfinger resolution paths (lines 318-464).

Python-specific semantics (truthiness, `dict.get`, iteration over
non-list values raising `TypeError`, `str.strip`, `str.lower`,
`str.startswith`) are modelled by the `py*` helpers.  JSON values are
the `JValue` inductive; Python `None` and JSON `null` are identified
(exactly as `json.loads` does).  Fallible Python code (statements that
can raise) is modelled with `Option`/`Except`.
-/

/-! ## Python string helpers -/

/-- Python whitespace stripped by `str.strip()` (ASCII subset; the claims
only involve ASCII URLs). -/
def isPySpace (c : Char) : Bool :=
  c == ' ' || c == '\t' || c == '\n' || c == '\x0d' || c == '\x0b' || c == '\x0c'

/-- `str.strip()`. -/
def pyStrip (s : String) : String :=
  ⟨((s.data.dropWhile isPySpace).reverse.dropWhile isPySpace).reverse⟩

/-- `str.lower()` (ASCII case folding; the inputs of interest are ASCII). -/
def pyLower (s : String) : String :=
  ⟨s.data.map Char.toLower⟩

/-- `l₂` begins with `l₁`. -/
def listHasPre : List Char → List Char → Bool
  | [], _ => true
  | _ :: _, [] => false
  | a :: as, b :: bs => a == b && listHasPre as bs

/-- Python `s.startswith(p)`. -/
def pyStartswith (s p : String) : Bool :=
  listHasPre p.data s.data

/-- Python `needle in hay` on strings (substring containment). -/
def strContains (hay needle : String) : Bool :=
  (List.range (hay.data.length + 1)).any fun i => listHasPre needle.data (hay.data.drop i)

/-- Split a character list at every occurrence of `sep` (Python `str.split(sep)`). -/
def splitOnChar (sep : Char) : List Char → List (List Char)
  | [] => [[]]
  | c :: cs =>
    let rest := splitOnChar sep cs
    if c == sep then [] :: rest
    else
      match rest with
      | g :: gs => (c :: g) :: gs
      | [] => [[c]]

/-! ## JSON values (Python objects as decoded by `json.loads`) -/

/-- A JSON value.  `null` doubles as Python `None` (exactly the identification
`json.loads` makes).  Numbers are modelled as integers; no claim depends on
non-integral numbers. -/
inductive JValue where
  | null : JValue
  | bool : Bool → JValue
  | num : Int → JValue
  | str : String → JValue
  | arr : List JValue → JValue
  | obj : List (String × JValue) → JValue

/-- Python truthiness of a JSON value. -/
def truthy : JValue → Bool
  | .null => false
  | .bool b => b
  | .num n => n != 0
  | .str s => s != ""
  | .arr [] => false
  | .arr (_ :: _) => true
  | .obj [] => false
  | .obj (_ :: _) => true

/-- `k in d` for a Python dict. -/
def hasKey (d : List (String × JValue)) (k : String) : Bool :=
  (d.lookup k).isSome

/-- `d.get(k)`: `None` when the key is absent (and `None` when the stored
value is JSON `null`, which Python cannot distinguish either). -/
def pyGet (d : List (String × JValue)) (k : String) : JValue :=
  (d.lookup k).getD .null

/-- `d.get(k, default)`. -/
def pyGetD (d : List (String × JValue)) (k : String) (dflt : JValue) : JValue :=
  (d.lookup k).getD dflt

/-- Python `for x in v`: lists iterate their elements, strings their
characters, dicts their keys; every other value raises `TypeError`
(modelled as `none`). -/
def pyIter : JValue → Option (List JValue)
  | .arr l => some l
  | .str s => some (s.data.map fun c => .str ⟨[c]⟩)
  | .obj d => some (d.map fun p => .str p.1)
  | _ => none

/-- Python `v == lit` for a string literal `lit` (true only when `v` is
that very string). -/
def isStrEq (v : JValue) (lit : String) : Bool :=
  match v with
  | .str s => s == lit
  | _ => false

/-! ## UTF-8 encoding (`url.encode('utf-8')`) -/

/-- UTF-8 encoding of one code point, as a list of byte values. -/
def utf8Char (c : Char) : List Nat :=
  let n := c.toNat
  if n < 0x80 then [n]
  else if n < 0x800 then [0xC0 + n / 0x40, 0x80 + n % 0x40]
  else if n < 0x10000 then
    [0xE0 + n / 0x1000, 0x80 + (n / 0x40) % 0x40, 0x80 + n % 0x40]
  else
    [0xF0 + n / 0x40000, 0x80 + (n / 0x1000) % 0x40, 0x80 + (n / 0x40) % 0x40, 0x80 + n % 0x40]

/-- UTF-8 encoding of a string. -/
def utf8 (s : String) : List Nat :=
  (s.data.map utf8Char).flatten

/-! ## SHA-256 (`hashlib.sha256`), on lists of byte values -/

/-- 2^32, the word modulus. -/
def M32 : Nat := 4294967296

/-- Rotate the low 32 bits of `x` right by `n` places. -/
def rotr (n x : Nat) : Nat :=
  ((x >>> n) ||| (x <<< (32 - n))) % M32

/-- Bitwise complement of a 32-bit word. -/
def not32 (x : Nat) : Nat := 4294967295 - x

def shaCh (e f g : Nat) : Nat := (e &&& f) ^^^ (not32 e &&& g)

def shaMaj (a b c : Nat) : Nat := (a &&& b) ^^^ (a &&& c) ^^^ (b &&& c)

def bigSigma0 (x : Nat) : Nat := rotr 2 x ^^^ rotr 13 x ^^^ rotr 22 x

def bigSigma1 (x : Nat) : Nat := rotr 6 x ^^^ rotr 11 x ^^^ rotr 25 x

def smallSigma0 (x : Nat) : Nat := rotr 7 x ^^^ rotr 18 x ^^^ (x >>> 3)

def smallSigma1 (x : Nat) : Nat := rotr 17 x ^^^ rotr 19 x ^^^ (x >>> 10)

/-- The 64 SHA-256 round constants, as decimal word values. -/
def K256 : List Nat :=
  [1116352408, 1899447441, 3049323471, 3921009573, 961987163, 1508970993,
   2453635748, 2870763221, 3624381080, 310598401, 607225278, 1426881987,
   1925078388, 2162078206, 2614888103, 3248222580, 3835390401, 4022224774,
   264347078, 604807628, 770255983, 1249150122, 1555081692, 1996064986,
   2554220882, 2821834349, 2952996808, 3210313671, 3336571891, 3584528711,
   113926993, 338241895, 666307205, 773529912, 1294757372, 1396182291,
   1695183700, 1986661051, 2177026350, 2456956037, 2730485921, 2820302411,
   3259730800, 3345764771, 3516065817, 3600352804, 4094571909, 275423344,
   430227734, 506948616, 659060556, 883997877, 958139571, 1322822218,
   1537002063, 1747873779, 1955562222, 2024104815, 2227730452, 2361852424,
   2428436474, 2756734187, 3204031479, 3329325298]

/-- The initial SHA-256 chaining state, as decimal word values. -/
def H256 : List Nat :=
  [1779033703, 3144134277, 1013904242, 2773480762,
   1359893119, 2600822924, 528734635, 1541459225]

/-- The 32-bit big-endian word starting at byte offset `4*i` of a block. -/
def blockWord (blk : List Nat) (i : Nat) : Nat :=
  (blk.getD (4 * i) 0) <<< 24 + (blk.getD (4 * i + 1) 0) <<< 16 +
  (blk.getD (4 * i + 2) 0) <<< 8 + blk.getD (4 * i + 3) 0

/-- The 64-entry message schedule of one block. -/
def schedule (blk : List Nat) : List Nat :=
  (List.range 48).foldl
    (fun w t =>
      w ++ [(w.getD t 0 + smallSigma0 (w.getD (t + 1) 0) +
             w.getD (t + 9) 0 + smallSigma1 (w.getD (t + 14) 0)) % M32])
    ((List.range 16).map (blockWord blk))

/-- One SHA-256 compression step over a 64-byte block. -/
def sha256Compress (H : List Nat) (blk : List Nat) : List Nat :=
  let W := schedule blk
  let final := (List.range 64).foldl
    (fun s t =>
      match s with
      | [a, b, c, d, e, f, g, h] =>
        let T1 := (h + bigSigma1 e + shaCh e f g + K256.getD t 0 + W.getD t 0) % M32
        let T2 := (bigSigma0 a + shaMaj a b c) % M32
        [(T1 + T2) % M32, a, b, c, (d + T1) % M32, e, f, g]
      | other => other)
    H
  List.zipWith (fun x y => (x + y) % M32) H final

/-- 64-bit big-endian encoding of the bit length. -/
def be64 (n : Nat) : List Nat :=
  [(n >>> 56) % 256, (n >>> 48) % 256, (n >>> 40) % 256, (n >>> 32) % 256,
   (n >>> 24) % 256, (n >>> 16) % 256, (n >>> 8) % 256, n % 256]

/-- 32-bit big-endian encoding of a word. -/
def be32 (n : Nat) : List Nat :=
  [(n >>> 24) % 256, (n >>> 16) % 256, (n >>> 8) % 256, n % 256]

/-- SHA-256 of a byte list. -/
def sha256 (msg : List Nat) : List Nat :=
  let L := msg.length
  let padded := msg ++ 0x80 :: List.replicate ((119 - L % 64) % 64) 0 ++ be64 (8 * L)
  let finalH := (List.range (padded.length / 64)).foldl
    (fun H i => sha256Compress H ((padded.drop (64 * i)).take 64)) H256
  (finalH.map be32).flatten

/-- HMAC-SHA256 (`hmac.new(key, msg, hashlib.sha256).digest()`). -/
def hmacSha256 (key msg : List Nat) : List Nat :=
  let k1 := if key.length > 64 then sha256 key else key
  let k0 := k1 ++ List.replicate (64 - k1.length) 0
  sha256 ((k0.map fun b => b ^^^ 0x5c) ++ sha256 ((k0.map fun b => b ^^^ 0x36) ++ msg))

/-! ## URL-safe base64 (`base64.urlsafe_b64encode`) -/

/-- The URL-safe base64 alphabet. -/
def b64alpha : String :=
  "ABCDEFGHIJKLMNOPQRSTUVWXYZabcdefghijklmnopqrstuvwxyz0123456789-_"

def b64chr (i : Nat) : Char := b64alpha.data.getD i 'A'

/-- One base64 output group from up to three input bytes. -/
def b64group : List Nat → List Char
  | [a, b, c] => [b64chr (a >>> 2), b64chr (((a % 4) <<< 4) + (b >>> 4)),
                  b64chr (((b % 16) <<< 2) + (c >>> 6)), b64chr (c % 64)]
  | [a, b] => [b64chr (a >>> 2), b64chr (((a % 4) <<< 4) + (b >>> 4)),
               b64chr ((b % 16) <<< 2), '=']
  | [a] => [b64chr (a >>> 2), b64chr ((a % 4) <<< 4), '=', '=']
  | _ => []

/-- `base64.urlsafe_b64encode(l).decode('utf-8')`. -/
def urlsafe_b64encode (l : List Nat) : String :=
  ⟨((List.range ((l.length + 2) / 3)).map fun i => b64group ((l.drop (3 * i)).take 3)).flatten⟩

/-- `str.rstrip('=')`. -/
def rstripEq (s : String) : String :=
  ⟨(s.data.reverse.dropWhile (· == '=')).reverse⟩

/-! ## URLSigner (main.py lines 46-55) -/

/-- `sign_media_url` (main.py 46-49): URL-safe base64 of the HMAC-SHA256 of
the URL's UTF-8 bytes, with trailing `=` stripped.  The process-wide secret
`MEDIA_HMAC_SECRET` is passed explicitly as a byte list. -/
def sign_media_url (secret : List Nat) (url : String) : String :=
  rstripEq (urlsafe_b64encode (hmacSha256 secret (utf8 url)))

/-- A string is ASCII-only. -/
def isAsciiStr (s : String) : Bool :=
  s.data.all fun c => c.toNat < 128

/-- `hmac.compare_digest(a, b)` on `str` arguments: a constant-time equality
test that raises `TypeError` (modelled as `none`) when either string has a
non-ASCII character.  The constant-time aspect is not observable in this
embedding; the result value is plain equality. -/
def compare_digest (a b : String) : Option Bool :=
  if isAsciiStr b && isAsciiStr a then some (a == b) else none

/-- `verify_media_signature` (main.py 52-55). -/
def verify_media_signature (secret : List Nat) (url sig : String) : Option Bool :=
  compare_digest (sign_media_url secret url) sig

/-! ## ActivityPub classification (main.py lines 58-106) -/

/-- `ACTIVITYPUB_TYPES` (main.py 59-66). -/
def ACTIVITYPUB_TYPES : List String :=
  ["Person", "Organization", "Service", "Group", "Application",
   "Note", "Article", "Video", "Audio", "Image", "Document",
   "Create", "Update", "Delete", "Follow", "Accept", "Reject",
   "Like", "Announce", "Undo", "Block", "Add", "Remove",
   "Question", "Event", "Place", "Tombstone", "OrderedCollection",
   "OrderedCollectionPage", "Collection", "CollectionPage"]

/-- `is_activitypub_content` (main.py 69-106).  Note that when the `type`
field holds a string or a list, its verdict is returned directly (`return`
in the Python), so the `id` fallback is reached only when `type` is absent
or holds a value of another shape. -/
def is_activitypub_content (content : JValue) (content_type : String) : Bool :=
  match content with
  | .obj d =>
    if strContains (pyLower content_type) "application/activity+json" then true
    else if hasKey d "@context" then true
    else
      match d.lookup "type" with
      | some (.str s) => ACTIVITYPUB_TYPES.contains s
      | some (.arr l) =>
        l.any fun t => match t with | .str s => ACTIVITYPUB_TYPES.contains s | _ => false
      | some _ => hasKey d "id"
      | none => hasKey d "id"
  | .arr l =>
    if strContains (pyLower content_type) "application/activity+json" then true
    else
      match l with
      | [] => false
      | f :: _ =>
        match f with
        | .obj d => hasKey d "@context" || hasKey d "type"
        | _ => false
  | _ => false

/-! ## Media-URL extraction and signing (main.py lines 109-167) -/

/-- `extract_url_from_media_object` (main.py 109-118).  The returned Python
value is a `JValue` (with `.null` standing for `None`); the function can
return values of any shape, since `media_obj['url']` is returned as-is when
it is neither falsy nor a dict. -/
def extract_url_from_media_object (media_obj : JValue) : JValue :=
  match media_obj with
  | .str s => .str s
  | .obj d =>
    let url := if truthy (pyGet d "url") then pyGet d "url" else pyGet d "href"
    match url with
    | .obj d2 => pyGet d2 "href"
    | v => v
  | _ => .null

/-- `signed_media[url] = sig` on a Python dict modelled as an association
list: overwrite in place if present, else append. -/
def dinsert (m : List (String × String)) (k v : String) : List (String × String) :=
  if m.any (fun p => p.1 == k) then m.map (fun p => if p.1 == k then (k, v) else p)
  else m ++ [(k, v)]

/-- The repeated guard-and-insert block of `sign_media_urls_in_content`:
extract a URL from a media object and record its signature if the result is
a string starting with `http://` or `https://`. -/
def addSigned (secret : List Nat) (sm : List (String × String)) (v : JValue) :
    List (String × String) :=
  match extract_url_from_media_object v with
  | .str u =>
    if pyStartswith u "http://" || pyStartswith u "https://" then
      dinsert sm u (sign_media_url secret u)
    else sm
  | _ => sm

/-- The per-tag emoji block (main.py 144-150 and 159-165): only dict tags of
type `Emoji` with a truthy `icon` contribute. -/
def emojiAdd (secret : List Nat) (sm : List (String × String)) (tag : JValue) :
    List (String × String) :=
  match tag with
  | .obj td =>
    if isStrEq (pyGet td "type") "Emoji" then
      if truthy (pyGet td "icon") then addSigned secret sm (pyGet td "icon") else sm
    else sm
  | _ => sm

/-- `sign_media_urls_in_content` (main.py 121-167).  Returns `none` when the
Python code would raise `TypeError` (a `for` loop over a non-iterable
`attributedTo.tag`, `attachment` or `tag` value). -/
def sign_media_urls_in_content (secret : List Nat) (content : JValue) :
    Option (List (String × String)) :=
  match content with
  | .obj d =>
    let sm1 :=
      if truthy (pyGet d "icon") then addSigned secret [] (pyGet d "icon") else []
    let attStep : Option (List (String × String)) :=
      match d.lookup "attributedTo" with
      | some (.obj ad) =>
        let sm2 :=
          if truthy (pyGet ad "icon") then addSigned secret sm1 (pyGet ad "icon") else sm1
        match pyIter (pyGetD ad "tag" (.arr [])) with
        | none => none
        | some tags => some (tags.foldl (emojiAdd secret) sm2)
      | _ => some sm1
    match attStep with
    | none => none
    | some sm3 =>
      match pyIter (pyGetD d "attachment" (.arr [])) with
      | none => none
      | some atts =>
        let sm4 := atts.foldl (addSigned secret) sm3
        match pyIter (pyGetD d "tag" (.arr [])) with
        | none => none
        | some tags => some (tags.foldl (emojiAdd secret) sm4)
  | _ => some []

/-! ## `urllib.parse.urlparse` (the parts `proxy_media` and `webfinger` use) -/

/-- The fields of a parse result that the code reads: `scheme`, `netloc` and
the derived `hostname` property (lowercased, `none` when empty). -/
structure UrlParts where
  scheme : String
  netloc : String
  hostname : Option String
deriving DecidableEq, Repr

/-- A character allowed in a URL scheme. -/
def schemeChar (c : Char) : Bool :=
  c.isAlpha || c.isDigit || c == '+' || c == '-' || c == '.'

/-- Split off the scheme: chars before the first `:` form the scheme when
the first is a letter and all are scheme characters; the scheme is
lowercased. -/
def splitScheme (s : String) : String × List Char :=
  match s.data.findIdx? (· == ':') with
  | some i =>
    if 0 < i && (s.data.take i).all schemeChar &&
        (match s.data.head? with | some c => c.isAlpha && c.toNat < 128 | none => false) then
      (pyLower ⟨s.data.take i⟩, s.data.drop (i + 1))
    else ("", s.data)
  | none => ("", s.data)

/-- A character that ends the netloc. -/
def netlocEnd (c : Char) : Bool :=
  c == '/' || c == '?' || c == '#'

/-- The portion of the netloc after the last `@` (`rpartition('@')`). -/
def afterLastAt (l : List Char) : List Char :=
  (l.reverse.takeWhile (fun c => !(c == '@'))).reverse

/-- `urlparse(url)` restricted to the fields the code reads.  Returns `none`
when `urlsplit` raises `ValueError` (mismatched brackets in the netloc).
IPv6 bracket contents validation and the WHATWG control-character stripping
are not modelled; no claim exercises them. -/
def urlparse (url : String) : Option UrlParts :=
  let (scheme, rest) := splitScheme url
  if listHasPre ['/', '/'] rest then
    let nl := (rest.drop 2).takeWhile (fun c => !netlocEnd c)
    if (nl.contains '[' && !nl.contains ']') || (nl.contains ']' && !nl.contains '[') then
      none
    else
      let hostinfo := afterLastAt nl
      let host :=
        if hostinfo.contains '[' then
          ((hostinfo.dropWhile (fun c => !(c == '['))).drop 1).takeWhile (fun c => !(c == ']'))
        else hostinfo.takeWhile (fun c => !(c == ':'))
      some ⟨scheme, ⟨nl⟩, if host.isEmpty then none else some (pyLower ⟨host⟩)⟩
  else some ⟨scheme, "", none⟩

/-! ## `ipaddress.ip_address` classification for IPv4 literals

Modelled from the Python `ipaddress` module for dotted-quad IPv4 literals
(four decimal octets, each 0-255, no leading zeros).  IPv6 literals (which
can only reach the check through a bracketed host) are outside the modelled
input space; no claim involves them. -/

/-- Parse one decimal octet (Python ≥ 3.9.5 rejects leading zeros). -/
def parseOctet (s : List Char) : Option Nat :=
  if s.isEmpty || s.length > 3 || !s.all (·.isDigit) then none
  else if s.length > 1 && s.headD '0' == '0' then none
  else
    let v := s.foldl (fun a c => a * 10 + (c.toNat - 48)) 0
    if v ≤ 255 then some v else none

/-- Parse a dotted-quad IPv4 literal. -/
def parseIPv4 (h : String) : Option (Nat × Nat × Nat × Nat) :=
  match (splitOnChar '.' h.data).map parseOctet with
  | [some a, some b, some c, some d] => some (a, b, c, d)
  | _ => none

/-- `IPv4Address.is_private` (the `_private_networks` list). -/
def ipv4Private (a b c d : Nat) : Bool :=
  a == 0 || a == 10 || a == 127 || (a == 169 && b == 254) ||
  (a == 172 && 16 ≤ b && b ≤ 31) ||
  (a == 192 && b == 0 && c == 0 && d ≤ 7) ||
  (a == 192 && b == 0 && c == 0 && (d == 170 || d == 171)) ||
  (a == 192 && b == 0 && c == 2) || (a == 192 && b == 168) ||
  (a == 198 && (b == 18 || b == 19)) || (a == 198 && b == 51 && c == 100) ||
  (a == 203 && b == 0 && c == 113) || 240 ≤ a

/-- The disjunction of address classes blocked at main.py 503-504:
`is_private or is_loopback or is_link_local or is_reserved or is_multicast`. -/
def blockedIPv4 (ip : Nat × Nat × Nat × Nat) : Bool :=
  match ip with
  | (a, b, c, d) =>
    ipv4Private a b c d || a == 127 || (a == 169 && b == 254) ||
    240 ≤ a || (224 ≤ a && a ≤ 239)

/-! ## The media proxy (main.py 467-553) -/

/-- An HTTP error response raised via `HTTPException`.  `detail` keeps the
fixed message prefix; interpolated exception text is elided. -/
structure HErr where
  status : Nat
  detail : String
deriving DecidableEq, Repr

/-- The SSRF/URL validation block of `proxy_media` (main.py 483-513),
returning the raised error, or `none` when the URL passes.  The generic
`except Exception` at 512-513 (which catches `urlparse` `ValueError` and
the `AttributeError` from `parsed.hostname.lower()` when the hostname is
empty) maps to the 400 "Invalid URL format" outcomes. -/
def ssrfCheck (media_url : String) : Option HErr :=
  match urlparse media_url with
  | none => some ⟨400, "Invalid URL format"⟩
  | some p =>
    if !(p.scheme == "http" || p.scheme == "https") then
      some ⟨400, "Only HTTP and HTTPS URLs are allowed"⟩
    else if p.netloc == "" then some ⟨400, "Invalid URL format"⟩
    else
      match p.hostname with
      | none => some ⟨400, "Invalid URL format"⟩
      | some h0 =>
        if pyLower h0 == "localhost" || pyLower h0 == "0.0.0.0" then
          some ⟨403, "Local network access is not allowed"⟩
        else
          match parseIPv4 (pyLower h0) with
          | some ip =>
            if blockedIPv4 ip then some ⟨403, "Local network access is not allowed"⟩
            else none
          | none =>
            if pyLower h0 == "localhost" then
              some ⟨403, "Local network access is not allowed"⟩
            else none

/-- The checks `proxy_media` can perform, in source order. -/
inductive Ev where
  | checkSigPresence
  | verifySig
  | ssrfValidate
  | cacheLookup
  | fetchOut
  | ctCheck
  | cacheWrite
deriving DecidableEq, Repr

/-- Source position of each check inside `proxy_media`. -/
def evRank : Ev → Nat
  | .checkSigPresence => 0
  | .verifySig => 1
  | .ssrfValidate => 2
  | .cacheLookup => 3
  | .fetchOut => 4
  | .ctCheck => 5
  | .cacheWrite => 6

/-- A trace is emitted in strictly increasing source order. -/
def evOrdered : List Ev → Bool
  | [] => true
  | [_] => true
  | a :: b :: r => decide (evRank a < evRank b) && evOrdered (b :: r)

/-- The shared disk cache: key, stored value `(bytes, content_type)`, and
the TTL the entry was written with.  Later writes shadow earlier ones. -/
def Cache : Type := List (String × (List Nat × String × Nat))

/-- `cache.get(key)` returning the stored `(bytes, content_type)` value. -/
def cacheLookup (c : Cache) (k : String) : Option (List Nat × String) :=
  (List.lookup k c).map fun e => (e.1, e.2.1)

/-- `cache.set(key, value, expire=ttl)`. -/
def cacheSet (c : Cache) (k : String) (bytes : List Nat) (ct : String) (ttl : Nat) : Cache :=
  (k, (bytes, ct, ttl)) :: c

/-- The upstream media fetch, as an oracle: either a transport failure
(`httpx.HTTPError`) or a response with status, raw `Content-Type` header
and body bytes. -/
structure FetchResp where
  status : Nat
  ctRaw : Option String
  body : List Nat

inductive FetchOutcome where
  | transportErr
  | resp (r : FetchResp)

/-- The media content-type allowlist test (main.py 533-538). -/
def ctAllowed (ct : String) : Bool :=
  pyStartswith ct "image/" || pyStartswith ct "video/" ||
  pyStartswith ct "audio/" || pyStartswith ct "application/octet-stream"

/-- A successful media response: bytes, derived media type, X-Cache marker. -/
structure MediaResp where
  body : List Nat
  mediaType : String
  xCache : String

/-- Everything `proxy_media` produces: the HTTP result, the trace of checks
that ran, and the cache after the request. -/
structure MediaOut where
  res : Except HErr MediaResp
  trace : List Ev
  cacheAfter : Cache

/-- The cache-lookup/fetch/content-type/cache-write tail of `proxy_media`
(main.py 515-553), reached once the signature and SSRF checks pass.  The
trace includes the four checks already performed. -/
def proxy_serve (media_url : String) (cache : Cache) (mediaTtl : Nat)
    (fo : FetchOutcome) : MediaOut :=
  let t0 : List Ev := [.checkSigPresence, .verifySig, .ssrfValidate, .cacheLookup]
  match cacheLookup cache ("media:" ++ media_url) with
  | some (bytes, ct) =>
    ⟨.ok ⟨bytes, if ct == "" then "application/octet-stream" else ct, "HIT"⟩, t0, cache⟩
  | none =>
    let t1 := t0 ++ [Ev.fetchOut]
    match fo with
    | .transportErr => ⟨.error ⟨500, "Failed to fetch media"⟩, t1, cache⟩
    | .resp r =>
      if 400 ≤ r.status then ⟨.error ⟨500, "Failed to fetch media"⟩, t1, cache⟩
      else
        let ct := pyLower (r.ctRaw.getD "")
        let t2 := t1 ++ [Ev.ctCheck]
        if !ctAllowed ct && !(ct == "") then
          ⟨.error ⟨400, "Invalid content type"⟩, t2, cache⟩
        else if r.body.length ≤ 10 * 1024 * 1024 then
          ⟨.ok ⟨r.body, if ct == "" then "application/octet-stream" else ct, "MISS"⟩,
           t2 ++ [Ev.cacheWrite],
           cacheSet cache ("media:" ++ media_url) r.body ct mediaTtl⟩
        else
          ⟨.ok ⟨r.body, if ct == "" then "application/octet-stream" else ct, "MISS"⟩,
           t2, cache⟩

/-- `proxy_media` (main.py 467-553), with the outbound fetch supplied as an
oracle and the cache passed explicitly.  `mediaTtl` is `MEDIA_CACHE_TTL`.
A `verify_media_signature` outcome of `none` (non-ASCII signature raising
`TypeError` outside any handler) surfaces as a generic 500. -/
def proxy_media (secret : List Nat) (url sig : String) (cache : Cache)
    (mediaTtl : Nat) (fo : FetchOutcome) : MediaOut :=
  let media_url := pyStrip url
  if media_url == "" then
    ⟨.error ⟨400, "URL parameter is required"⟩, [], cache⟩
  else if sig == "" then
    ⟨.error ⟨403, "Signature is required"⟩, [.checkSigPresence], cache⟩
  else
    match verify_media_signature secret media_url sig with
    | none => ⟨.error ⟨500, "Internal Server Error"⟩, [.checkSigPresence, .verifySig], cache⟩
    | some false =>
      ⟨.error ⟨403, "Invalid signature"⟩, [.checkSigPresence, .verifySig], cache⟩
    | some true =>
      match ssrfCheck media_url with
      | some e => ⟨.error e, [.checkSigPresence, .verifySig, .ssrfValidate], cache⟩
      | none => proxy_serve media_url cache mediaTtl fo


/-! ## Webfinger resolution (main.py 318-464) -/

/-- The outcome of one `httpx` GET of a JSON endpoint: a transport-level
`httpx.HTTPError`, or a response with its status and parsed JSON body
(`none` body = the body fails to parse as JSON). -/
inductive JFetch where
  | transportErr
  | resp (status : Nat) (body : Option JValue)

/-- A GET whose `response.raise_for_status()` raises `httpx.HTTPError`
(transport failure or HTTP status ≥ 400). -/
def isHttpFailure : JFetch → Bool
  | .transportErr => true
  | .resp st _ => 400 ≤ st

/-- The network requests the webfinger resource path can make. -/
inductive WEv where
  | wfGet
  | actorGet (u : String)
  | fallbackGet
deriving DecidableEq, Repr

/-- The normalized actor summary the webfinger endpoint returns
(main.py 349-357 and duplicates). -/
structure ActorOut where
  handle : JValue
  nickname : JValue
  idv : JValue
  domain : String
  tag : JValue
  icon : JValue
  signedMedia : List (String × String)

/-- Project a fetched actor object into the response record (the repeated
block at main.py 338-357 / 400-419 / 434-453): extract the domain from the
URL, the icon, and the signed media map.  `none` models the uncaught
exceptions of that block — `.get` on a non-dict (`AttributeError`),
`urlparse` `ValueError`, or a `TypeError` inside
`sign_media_urls_in_content` — all of which the handler turns into a
generic 500. -/
def projectActor (secret : List Nat) (actor_data : JValue) (default_id durl : String) :
    Option ActorOut :=
  match actor_data with
  | .obj d =>
    match urlparse durl with
    | none => none
    | some p =>
      let icon_url :=
        if truthy (pyGet d "icon") then extract_url_from_media_object (pyGet d "icon")
        else .null
      match sign_media_urls_in_content secret actor_data with
      | none => none
      | some sm =>
        some ⟨pyGetD d "preferredUsername" (.str ""), pyGetD d "name" (.str ""),
              pyGetD d "id" (.str default_id), p.netloc, pyGetD d "tag" (.arr []),
              icon_url, sm⟩
  | _ => none

/-- The `actor_url` branch of the webfinger endpoint (main.py 333-363): a
single direct fetch and projection, with no ActivityPub classification. -/
def webfinger_actor_url (secret : List Nat) (actor_url : String) (jf : JFetch) :
    Except HErr ActorOut :=
  match jf with
  | .transportErr => .error ⟨500, "Failed to fetch webfinger"⟩
  | .resp st body =>
    if 400 ≤ st then .error ⟨500, "Failed to fetch webfinger"⟩
    else
      match body with
      | none => .error ⟨500, "An error occurred"⟩
      | some actor_data =>
        match projectActor secret actor_data actor_url actor_url with
        | none => .error ⟨500, "An error occurred"⟩
        | some w => .ok w

/-- Resource normalization (main.py 366-377): `acct:` resources must have
exactly one `@`; other resources take their domain from `urlparse` (falling
back to the resource itself).  Returns the webfinger query URL. -/
def acctParse (resource : String) : Except HErr String :=
  if pyStartswith resource "acct:" then
    let parts := splitOnChar '@' (resource.data.drop 5)
    if parts.length != 2 then .error ⟨400, "Invalid acct format"⟩
    else
      .ok ("https://" ++ (⟨parts.getD 1 []⟩ : String) ++
           "/.well-known/webfinger?resource=" ++ resource)
  else
    match urlparse resource with
    | none => .error ⟨500, "An error occurred"⟩
    | some p =>
      let domain := if p.netloc == "" then resource else p.netloc
      .ok ("https://" ++ domain ++ "/.well-known/webfinger?resource=acct:" ++ resource)

/-- The `links` scan (main.py 386-390): first link whose `type` equals
`application/activity+json` yields its `href`; no match leaves `actor_url`
as `None`.  A non-dict link raises `AttributeError` (`none`). -/
def findActorHref : List JValue → Option JValue
  | [] => some .null
  | .obj d :: ls =>
    if isStrEq (pyGet d "type") "application/activity+json" then some (pyGet d "href")
    else findActorHref ls
  | _ :: _ => none

/-- The `except httpx.HTTPError` handler at main.py 427-457: retry the raw
resource as an actor URL when it looks like an HTTP(S) URL, else re-raise
(which the outer handler maps to a 500). -/
def wfFallback (secret : List Nat) (resource : String) (resF : JFetch) (evs : List WEv) :
    Except HErr ActorOut × List WEv :=
  if pyStartswith resource "http://" || pyStartswith resource "https://" then
    let evs := evs ++ [WEv.fallbackGet]
    match resF with
    | .transportErr => (.error ⟨500, "Failed to fetch webfinger"⟩, evs)
    | .resp st body =>
      if 400 ≤ st then (.error ⟨500, "Failed to fetch webfinger"⟩, evs)
      else
        match body with
        | none => (.error ⟨500, "An error occurred"⟩, evs)
        | some actor_data =>
          match projectActor secret actor_data resource resource with
          | none => (.error ⟨500, "An error occurred"⟩, evs)
          | some w => (.ok w, evs)
  else (.error ⟨500, "Failed to fetch webfinger"⟩, evs)

/-- The `resource` branch of the webfinger endpoint (main.py 365-457), with
the three possible network calls supplied as oracles: `wf` for the
webfinger document, `actorF` for the actor fetch at the discovered href,
`resF` for the raw-resource fallback fetch.  The second component records
which network requests were attempted. -/
def webfinger_resource (secret : List Nat) (resource : String) (wf : JFetch)
    (actorF : String → JFetch) (resF : JFetch) : Except HErr ActorOut × List WEv :=
  match acctParse resource with
  | .error e => (.error e, [])
  | .ok _wfUrl =>
    let evs := [WEv.wfGet]
    match wf with
    | .transportErr => wfFallback secret resource resF evs
    | .resp st body =>
      if 400 ≤ st then wfFallback secret resource resF evs
      else
        match body with
        | none => (.error ⟨500, "An error occurred"⟩, evs)
        | some wfdata =>
          match wfdata with
          | .obj wd =>
            match pyIter (pyGetD wd "links" (.arr [])) with
            | none => (.error ⟨500, "An error occurred"⟩, evs)
            | some links =>
              match findActorHref links with
              | none => (.error ⟨500, "An error occurred"⟩, evs)
              | some href =>
                if !truthy href then
                  (.error ⟨404, "No ActivityPub actor found"⟩, evs)
                else
                  match href with
                  | .str u =>
                    let evs := evs ++ [WEv.actorGet u]
                    match actorF u with
                    | .transportErr => wfFallback secret resource resF evs
                    | .resp st2 b2 =>
                      if 400 ≤ st2 then wfFallback secret resource resF evs
                      else
                        match b2 with
                        | none => (.error ⟨500, "An error occurred"⟩, evs)
                        | some actor_data =>
                          match projectActor secret actor_data u u with
                          | none => (.error ⟨500, "An error occurred"⟩, evs)
                          | some w => (.ok w, evs)
                  | _ => (.error ⟨500, "An error occurred"⟩, evs)
          | _ => (.error ⟨500, "An error occurred"⟩, evs)

/-! ## Helper predicates used by the claim statements -/

/-- The Python value is a string or `None` ("a single string or nothing"). -/
def strOrNone : JValue → Bool
  | .str _ => true
  | .null => true
  | _ => false

/-- A `url`/`href` field value from which extraction can only produce a
string or `None`: a string, `None`/absent, or a dict whose `href` is a
string or `None`/absent. -/
def goodField (v : JValue) : Bool :=
  match v with
  | .obj d2 => strOrNone (pyGet d2 "href")
  | v => strOrNone v

/-- The SignedMediaMap invariant: every key is an `http(s)` URL and every
value is that key's signature. -/
def SMInv (secret : List Nat) (sm : List (String × String)) : Prop :=
  ∀ p ∈ sm, (pyStartswith p.1 "http://" || pyStartswith p.1 "https://") = true ∧
    p.2 = sign_media_url secret p.1

/-- A webfinger link entry that is a dict whose `type` is not
`application/activity+json`. -/
def nonMatchingLink (l : JValue) : Bool :=
  match l with
  | .obj d => !isStrEq (pyGet d "type") "application/activity+json"
  | _ => false

set_option maxRecDepth 100000

/-! ## Signature strings are ASCII -/

theorem getD_char_ascii : ∀ (l : List Char) (j : Nat), (∀ c ∈ l, c.toNat < 128) →
    (l.getD j 'A').toNat < 128
  | [], _, _ => by simp [List.getD]
  | c :: _, 0, h => by simpa using h c (by simp)
  | _ :: cs, j + 1, h =>
    by simpa [List.getD] using getD_char_ascii cs j (fun x hx => h x (by simp [hx]))

theorem b64chr_ascii (i : Nat) : (b64chr i).toNat < 128 := by
  unfold b64chr
  exact getD_char_ascii _ _ (by decide)

theorem b64group_ascii : ∀ (g : List Nat), ∀ c ∈ b64group g, c.toNat < 128 := by
  intro g c hc
  match g with
  | [] => simp [b64group] at hc
  | [a] =>
    simp only [b64group, List.mem_cons, List.not_mem_nil, or_false] at hc
    casesm* _ ∨ _ <;> subst_vars <;> first | apply b64chr_ascii | decide
  | [a, b] =>
    simp only [b64group, List.mem_cons, List.not_mem_nil, or_false] at hc
    casesm* _ ∨ _ <;> subst_vars <;> first | apply b64chr_ascii | decide
  | [a, b, d] =>
    simp only [b64group, List.mem_cons, List.not_mem_nil, or_false] at hc
    casesm* _ ∨ _ <;> subst_vars <;> apply b64chr_ascii
  | _ :: _ :: _ :: _ :: _ => simp [b64group] at hc

theorem urlsafe_b64encode_ascii (l : List Nat) :
    ∀ c ∈ (urlsafe_b64encode l).data, c.toNat < 128 := by
  intro c hc
  unfold urlsafe_b64encode at hc
  simp only [List.mem_flatten, List.mem_map] at hc
  obtain ⟨gl, ⟨i, _, rfl⟩, hcg⟩ := hc
  exact b64group_ascii _ c hcg

/-- The output of `sign_media_url` is always ASCII (it is base64 text). -/
theorem sign_media_url_ascii (secret : List Nat) (url : String) :
    isAsciiStr (sign_media_url secret url) = true := by
  unfold sign_media_url rstripEq isAsciiStr
  rw [List.all_eq_true]
  intro c hc
  simp only [List.mem_reverse] at hc
  have h2 : c ∈ (urlsafe_b64encode (hmacSha256 secret (utf8 url))).data := by
    have hsub := List.dropWhile_sublist (p := (· == '='))
      (l := (urlsafe_b64encode (hmacSha256 secret (utf8 url))).data.reverse)
    have := hsub.mem hc
    simpa using this
  simpa using urlsafe_b64encode_ascii _ c h2

/-- A well-formed signature always verifies. -/
theorem verify_sign_self (secret : List Nat) (u : String) :
    verify_media_signature secret u (sign_media_url secret u) = some true := by
  unfold verify_media_signature compare_digest
  rw [sign_media_url_ascii]
  simp

/-- A differing ASCII signature never verifies. -/
theorem verify_sign_ne (secret : List Nat) (u s : String)
    (hA : isAsciiStr s = true) (hne : s ≠ sign_media_url secret u) :
    verify_media_signature secret u s = some false := by
  unfold verify_media_signature compare_digest
  rw [sign_media_url_ascii, hA]
  simp only [Bool.and_self, if_true]
  have : (sign_media_url secret u == s) = false :=
    beq_eq_false_iff_ne.mpr (fun h => hne h.symm)
  rw [this]


/-! ## Claim C1 -/

/-- Claim C1 counterexample.  The claim says `verify_media_signature(u, s)`
returns false for every supplied signature string `s` that differs from
`sign_media_url(u)`.  A non-ASCII `s` (such as `"Ā"`) differs from the
(always ASCII) correct signature, yet `hmac.compare_digest` raises
`TypeError` (modelled as `none`) instead of returning `False`. -/
theorem c1_counterexample :
    verify_media_signature [] "https://example.com/a.png" "Ā" = none ∧
    "Ā" ≠ sign_media_url [] "https://example.com/a.png" := by
  constructor
  · rfl
  · intro h
    have ha := sign_media_url_ascii [] "https://example.com/a.png"
    rw [← h] at ha
    exact absurd ha (by decide)

/-- Claim C1 (amended): for every URL `u`, `verify_media_signature(u,
sign_media_url(u))` returns true; and every ASCII signature string that
differs from `sign_media_url(u)` — in particular any mutation that keeps
the characters ASCII — makes `verify_media_signature` return false.
(A mutation that produces a non-ASCII string instead raises `TypeError`
inside `hmac.compare_digest`.) -/
theorem c1_amended (secret : List Nat) (u : String) :
    verify_media_signature secret u (sign_media_url secret u) = some true ∧
    ∀ s : String, isAsciiStr s = true → s ≠ sign_media_url secret u →
      verify_media_signature secret u s = some false :=
  ⟨verify_sign_self secret u, fun s hA hne => verify_sign_ne secret u s hA hne⟩

/-- Witness for `c1_amended` at a concrete URL and secret. -/
theorem c1_witness :
    verify_media_signature [] "https://cdn/a.png" (sign_media_url [] "https://cdn/a.png") =
      some true ∧
    verify_media_signature [] "https://cdn/a.png" "x" = some false := by
  have h := c1_amended [] "https://cdn/a.png"
  exact ⟨h.1, h.2 "x" (by decide) (by decide)⟩

/-! ## Reduction lemma: a valid-signature request reaches the SSRF check -/

/-- With a non-empty URL, a present signature and a verifying signature,
`proxy_media` reduces to the SSRF check followed by the serve stage. -/
theorem proxy_media_valid_sig (secret : List Nat) (url sig : String) (cache : Cache)
    (ttl : Nat) (fo : FetchOutcome)
    (hu : pyStrip url ≠ "") (hs : sig ≠ "")
    (hv : verify_media_signature secret (pyStrip url) sig = some true) :
    proxy_media secret url sig cache ttl fo =
      match ssrfCheck (pyStrip url) with
      | some e => ⟨.error e, [.checkSigPresence, .verifySig, .ssrfValidate], cache⟩
      | none => proxy_serve (pyStrip url) cache ttl fo := by
  have h1 : (pyStrip url == "") = false := beq_eq_false_iff_ne.mpr hu
  have h2 : (sig == "") = false := beq_eq_false_iff_ne.mpr hs
  unfold proxy_media
  simp only [h1, h2, hv, Bool.false_eq_true, if_false]

/-! ## Claim C2 -/

/-- Claim C2: with a valid signature, the SSRF validation rejects
`http://localhost/x`, `http://127.0.0.1/x`, `http://169.254.1.1/x`,
`http://10.0.0.5/x`, `ftp://example.com/x` and every URL whose parsed host
component is empty, while `https://example.com/x` passes validation and the
request proceeds (the cache lookup runs). -/
theorem c2 (secret : List Nat) (cache : Cache) (ttl : Nat) (fo : FetchOutcome)
    (sigB sigG : String) (hB1 : sigB ≠ "")
    (hB2 : verify_media_signature secret "http://localhost/x" sigB = some true)
    (hG1 : sigG ≠ "")
    (hG2 : verify_media_signature secret "https://example.com/x" sigG = some true) :
    ssrfCheck "http://localhost/x" = some ⟨403, "Local network access is not allowed"⟩ ∧
    ssrfCheck "http://127.0.0.1/x" = some ⟨403, "Local network access is not allowed"⟩ ∧
    ssrfCheck "http://169.254.1.1/x" = some ⟨403, "Local network access is not allowed"⟩ ∧
    ssrfCheck "http://10.0.0.5/x" = some ⟨403, "Local network access is not allowed"⟩ ∧
    ssrfCheck "ftp://example.com/x" = some ⟨400, "Only HTTP and HTTPS URLs are allowed"⟩ ∧
    (∀ u : String, ((urlparse u).map UrlParts.netloc).getD "" = "" →
      (ssrfCheck u).isSome = true) ∧
    ssrfCheck "https://example.com/x" = none ∧
    (proxy_media secret "http://localhost/x" sigB cache ttl fo).res =
      .error ⟨403, "Local network access is not allowed"⟩ ∧
    Ev.cacheLookup ∈ (proxy_media secret "https://example.com/x" sigG cache ttl fo).trace := by
  refine ⟨by decide, by decide, by decide, by decide, by decide, ?_, by decide, ?_, ?_⟩
  · intro u hu
    cases hp : urlparse u with
    | none => unfold ssrfCheck; rw [hp]; rfl
    | some p =>
      rw [hp] at hu
      simp at hu
      unfold ssrfCheck
      rw [hp]
      cases hsb : (p.scheme == "http" || p.scheme == "https") <;> simp [hsb, hu]
  · have hstrip : pyStrip "http://localhost/x" = "http://localhost/x" := by decide
    have h := proxy_media_valid_sig secret "http://localhost/x" sigB cache ttl fo
      (by rw [hstrip]; decide) hB1 (by rw [hstrip]; exact hB2)
    have hS : ssrfCheck "http://localhost/x" =
        some ⟨403, "Local network access is not allowed"⟩ := by decide
    rw [h, hstrip, hS]
  · have hstrip : pyStrip "https://example.com/x" = "https://example.com/x" := by decide
    have h := proxy_media_valid_sig secret "https://example.com/x" sigG cache ttl fo
      (by rw [hstrip]; decide) hG1 (by rw [hstrip]; exact hG2)
    have hS : ssrfCheck "https://example.com/x" = none := by decide
    rw [h, hstrip, hS]
    show Ev.cacheLookup ∈ (proxy_serve "https://example.com/x" cache ttl fo).trace
    simp only [proxy_serve]
    repeat' split
    all_goals simp_all

/-- Witness for `c2` with the honestly signed URLs under a concrete secret. -/
theorem c2_witness :
    ssrfCheck "http://localhost/x" = some ⟨403, "Local network access is not allowed"⟩ ∧
    ssrfCheck "http://127.0.0.1/x" = some ⟨403, "Local network access is not allowed"⟩ ∧
    ssrfCheck "http://169.254.1.1/x" = some ⟨403, "Local network access is not allowed"⟩ ∧
    ssrfCheck "http://10.0.0.5/x" = some ⟨403, "Local network access is not allowed"⟩ ∧
    ssrfCheck "ftp://example.com/x" = some ⟨400, "Only HTTP and HTTPS URLs are allowed"⟩ ∧
    (∀ u : String, ((urlparse u).map UrlParts.netloc).getD "" = "" →
      (ssrfCheck u).isSome = true) ∧
    ssrfCheck "https://example.com/x" = none ∧
    (proxy_media [] "http://localhost/x" (sign_media_url [] "http://localhost/x")
      [] 3600 .transportErr).res =
      .error ⟨403, "Local network access is not allowed"⟩ ∧
    Ev.cacheLookup ∈ (proxy_media [] "https://example.com/x"
      (sign_media_url [] "https://example.com/x") [] 3600 .transportErr).trace :=
  c2 [] [] 3600 .transportErr
    (sign_media_url [] "http://localhost/x") (sign_media_url [] "https://example.com/x")
    (by decide) (verify_sign_self [] "http://localhost/x")
    (by decide) (verify_sign_self [] "https://example.com/x")

/-! ## Claim C3 -/

/-- Claim C3: `proxy_media` performs its checks in source order (the trace
is strictly increasing in `evRank`, for every input); a request whose
signature is present but does not verify stops right after the signature
check — no SSRF validation, no cache read or write, no outbound fetch —
and whenever the cache holds the key the outbound fetch never runs and the
cache is left unchanged. -/
theorem c3 (secret : List Nat) (url sig : String) (cache : Cache) (ttl : Nat)
    (fo : FetchOutcome) :
    evOrdered (proxy_media secret url sig cache ttl fo).trace = true ∧
    (pyStrip url ≠ "" → sig ≠ "" →
      verify_media_signature secret (pyStrip url) sig = some false →
      (proxy_media secret url sig cache ttl fo).trace = [.checkSigPresence, .verifySig] ∧
      (proxy_media secret url sig cache ttl fo).res = .error ⟨403, "Invalid signature"⟩ ∧
      (proxy_media secret url sig cache ttl fo).cacheAfter = cache ∧
      Ev.ssrfValidate ∉ (proxy_media secret url sig cache ttl fo).trace ∧
      Ev.cacheLookup ∉ (proxy_media secret url sig cache ttl fo).trace ∧
      Ev.fetchOut ∉ (proxy_media secret url sig cache ttl fo).trace ∧
      Ev.cacheWrite ∉ (proxy_media secret url sig cache ttl fo).trace) ∧
    ((cacheLookup cache ("media:" ++ pyStrip url)).isSome = true →
      Ev.fetchOut ∉ (proxy_media secret url sig cache ttl fo).trace ∧
      (proxy_media secret url sig cache ttl fo).cacheAfter = cache) := by
  refine ⟨?_, ?_, ?_⟩
  · simp only [proxy_media, proxy_serve]
    repeat' split
    all_goals simp_all [evOrdered, evRank]
  · intro h1 h2 h3
    have b1 : (pyStrip url == "") = false := beq_eq_false_iff_ne.mpr h1
    have b2 : (sig == "") = false := beq_eq_false_iff_ne.mpr h2
    simp only [proxy_media, b1, b2, h3, Bool.false_eq_true, if_false]
    simp
  · intro h
    simp only [proxy_media, proxy_serve]
    repeat' split
    all_goals simp_all

/-- Witness for `c3`: a request with an invalid signature on a cached key. -/
theorem c3_witness :
    evOrdered (proxy_media [] "https://e" "!"
      [("media:https://e", ([7], "image/png", 99))] 3600 .transportErr).trace = true ∧
    ((proxy_media [] "https://e" "!"
        [("media:https://e", ([7], "image/png", 99))] 3600 .transportErr).trace =
       [.checkSigPresence, .verifySig] ∧
     (proxy_media [] "https://e" "!"
        [("media:https://e", ([7], "image/png", 99))] 3600 .transportErr).res =
       .error ⟨403, "Invalid signature"⟩ ∧
     (proxy_media [] "https://e" "!"
        [("media:https://e", ([7], "image/png", 99))] 3600 .transportErr).cacheAfter =
       [("media:https://e", ([7], "image/png", 99))] ∧
     Ev.ssrfValidate ∉ (proxy_media [] "https://e" "!"
        [("media:https://e", ([7], "image/png", 99))] 3600 .transportErr).trace ∧
     Ev.cacheLookup ∉ (proxy_media [] "https://e" "!"
        [("media:https://e", ([7], "image/png", 99))] 3600 .transportErr).trace ∧
     Ev.fetchOut ∉ (proxy_media [] "https://e" "!"
        [("media:https://e", ([7], "image/png", 99))] 3600 .transportErr).trace ∧
     Ev.cacheWrite ∉ (proxy_media [] "https://e" "!"
        [("media:https://e", ([7], "image/png", 99))] 3600 .transportErr).trace) ∧
    (Ev.fetchOut ∉ (proxy_media [] "https://e" "!"
        [("media:https://e", ([7], "image/png", 99))] 3600 .transportErr).trace ∧
     (proxy_media [] "https://e" "!"
        [("media:https://e", ([7], "image/png", 99))] 3600 .transportErr).cacheAfter =
       [("media:https://e", ([7], "image/png", 99))]) := by
  have h := c3 [] "https://e" "!" [("media:https://e", ([7], "image/png", 99))] 3600
    .transportErr
  exact ⟨h.1, h.2.1 (by decide) (by decide) (by decide), h.2.2 (by decide)⟩

/-! ## Claim C4 -/

/-- Claim C4 counterexample: a dict whose Content-Type does not name
activity+json, with no `@context`, a string `type` outside the vocabulary
(`"Foo"`), and an `id` field, is classified NOT ActivityPub — the Python
`return type_value in ACTIVITYPUB_TYPES` ends the function before the `id`
fallback can run, contradicting the claim that rule (d) accepts it. -/
theorem c4_counterexample :
    is_activitypub_content (.obj [("type", .str "Foo"), ("id", .str "x")])
      "application/json" = false := by decide

/-- Claim C4 (amended): rule (c) is decisive for a string-valued `type`: a
dict without an activity+json Content-Type and without `@context`, whose
`type` is a string outside the vocabulary, is rejected even when `id` is
present; the lenient `id` fallback (rule (d)) applies only when `type` is
absent (or holds neither a string nor a list). -/
theorem c4_amended (d : List (String × JValue)) (ct s : String)
    (hct : strContains (pyLower ct) "application/activity+json" = false)
    (hctx : hasKey d "@context" = false)
    (hty : d.lookup "type" = some (.str s))
    (hvocab : ACTIVITYPUB_TYPES.contains s = false)
    (_hid : hasKey d "id" = true) :
    is_activitypub_content (.obj d) ct = false ∧
    (∀ d2 : List (String × JValue), hasKey d2 "@context" = false →
      d2.lookup "type" = none → hasKey d2 "id" = true →
      is_activitypub_content (.obj d2) ct = true) := by
  constructor
  · simp only [is_activitypub_content, hct, hctx, hty, hvocab, Bool.false_eq_true,
      if_false]
  · intro d2 h1 h2 h3
    simp only [is_activitypub_content, hct, h1, h2, h3, Bool.false_eq_true, if_false]

/-- Witness for `c4_amended` at the counterexample dict and a bare-`id`
dict. -/
theorem c4_witness :
    is_activitypub_content (.obj [("type", .str "Foo"), ("id", .str "x")])
      "application/json" = false ∧
    is_activitypub_content (.obj [("id", .str "x")]) "application/json" = true := by
  have h := c4_amended [("type", .str "Foo"), ("id", .str "x")] "application/json" "Foo"
    (by decide) (by decide) (by rfl) (by decide) (by decide)
  exact ⟨h.1, h.2 [("id", .str "x")] (by decide) (by rfl) (by decide)⟩

/-! ## Claim C5 -/

/-- Claim C5 counterexample: with a valid signature, the SSRF rejection of
`ftp://example.com/x` (disallowed scheme) is raised with HTTP status 400,
not 403 — the claim that every SSRF-guard rejection is a 403 ForbiddenError
is false. -/
theorem c5_counterexample :
    (proxy_media [] "ftp://example.com/x" (sign_media_url [] "ftp://example.com/x")
      [] 3600 .transportErr).res =
      .error ⟨400, "Only HTTP and HTTPS URLs are allowed"⟩ := by
  have hstrip : pyStrip "ftp://example.com/x" = "ftp://example.com/x" := by decide
  have h := proxy_media_valid_sig [] "ftp://example.com/x"
    (sign_media_url [] "ftp://example.com/x") [] 3600 .transportErr
    (by rw [hstrip]; decide) (by decide)
    (by rw [hstrip]; exact verify_sign_self [] "ftp://example.com/x")
  have hS : ssrfCheck "ftp://example.com/x" =
      some ⟨400, "Only HTTP and HTTPS URLs are allowed"⟩ := by decide
  rw [h, hstrip, hS]

/-- Every error the SSRF validation block can raise. -/
theorem ssrfCheck_errors (u : String) (e : HErr) (h : ssrfCheck u = some e) :
    e = ⟨400, "Invalid URL format"⟩ ∨ e = ⟨400, "Only HTTP and HTTPS URLs are allowed"⟩ ∨
    e = ⟨403, "Local network access is not allowed"⟩ := by
  unfold ssrfCheck at h
  repeat' split at h
  all_goals simp_all

/-- Claim C5 (amended): with a valid signature, an SSRF-guard rejection
surfaces exactly as its `HTTPException`; rejections for blocked hostnames
and private/loopback/link-local/reserved/multicast literal IPs carry status
403 ("Local network access is not allowed"), while a non-http(s) scheme or
an empty/invalid host component is rejected with status 400. -/
theorem c5_amended (secret : List Nat) (u sig : String) (cache : Cache) (ttl : Nat)
    (fo : FetchOutcome) (e : HErr)
    (hu : pyStrip u ≠ "") (hs : sig ≠ "")
    (hv : verify_media_signature secret (pyStrip u) sig = some true)
    (hr : ssrfCheck (pyStrip u) = some e) :
    (proxy_media secret u sig cache ttl fo).res = .error e ∧
    (e.status = 403 ∨ e.status = 400) ∧
    (e.status = 403 ↔ e.detail = "Local network access is not allowed") := by
  refine ⟨?_, ?_, ?_⟩
  · rw [proxy_media_valid_sig secret u sig cache ttl fo hu hs hv, hr]
  · rcases ssrfCheck_errors _ _ hr with he | he | he <;> subst he <;> simp
  · rcases ssrfCheck_errors _ _ hr with he | he | he <;> subst he <;> simp

/-- Witness for `c5_amended` at the blocked-hostname URL. -/
theorem c5_witness :
    (proxy_media [] "http://localhost/a" (sign_media_url [] "http://localhost/a")
      [] 3600 .transportErr).res =
      .error ⟨403, "Local network access is not allowed"⟩ ∧
    ((403 : Nat) = 403 ∨ (403 : Nat) = 400) ∧
    ((403 : Nat) = 403 ↔ "Local network access is not allowed" =
      "Local network access is not allowed") := by
  have h := c5_amended [] "http://localhost/a" (sign_media_url [] "http://localhost/a")
    [] 3600 .transportErr ⟨403, "Local network access is not allowed"⟩
    (by decide) (by decide)
    (by have hstrip : pyStrip "http://localhost/a" = "http://localhost/a" := by decide
        rw [hstrip]; exact verify_sign_self [] "http://localhost/a")
    (by decide)
  exact h

/-! ## Claim C6 -/

theorem smInv_nil (secret : List Nat) : SMInv secret [] :=
  fun p hp => absurd hp (List.not_mem_nil p)

theorem dinsert_inv (secret : List Nat) (sm : List (String × String)) (k : String)
    (hk : (pyStartswith k "http://" || pyStartswith k "https://") = true)
    (hin : SMInv secret sm) :
    SMInv secret (dinsert sm k (sign_media_url secret k)) := by
  intro p hp
  unfold dinsert at hp
  split at hp
  · simp only [List.mem_map] at hp
    obtain ⟨q, hq, rfl⟩ := hp
    by_cases hqk : (q.1 == k) = true
    · simp [hqk, hk]
    · simp only [hqk, Bool.false_eq_true, if_false]
      exact hin q hq
  · rw [List.mem_append] at hp
    rcases hp with hq | hp2
    · exact hin _ hq
    · rw [List.mem_singleton] at hp2
      subst hp2
      exact ⟨hk, rfl⟩

theorem addSigned_inv (secret : List Nat) :
    ∀ (sm : List (String × String)) (v : JValue),
      SMInv secret sm → SMInv secret (addSigned secret sm v) := by
  intro sm v hin
  unfold addSigned
  split
  · split
    · next hk => exact dinsert_inv secret sm _ hk hin
    · exact hin
  · exact hin

theorem emojiAdd_inv (secret : List Nat) :
    ∀ (sm : List (String × String)) (tag : JValue),
      SMInv secret sm → SMInv secret (emojiAdd secret sm tag) := by
  intro sm tag hin
  unfold emojiAdd
  split
  · split
    · split
      · exact addSigned_inv secret sm _ hin
      · exact hin
    · exact hin
  · exact hin

theorem foldl_inv (secret : List Nat)
    (f : List (String × String) → JValue → List (String × String))
    (hf : ∀ s v, SMInv secret s → SMInv secret (f s v)) :
    ∀ (l : List JValue) (s : List (String × String)),
      SMInv secret s → SMInv secret (l.foldl f s) := by
  intro l
  induction l with
  | nil => exact fun s h => h
  | cons x xs ih => exact fun s h => ih _ (hf s x h)

/-- Claim C6: whenever `sign_media_urls_in_content` returns a map, every
key starts with `http://` or `https://` and every value is
`sign_media_url` of its key (non-string or non-HTTP extracted URLs are
skipped, never signed); on `{"icon": {"url": "https://cdn/a.png"}}` the
map holds exactly the one entry for `https://cdn/a.png`. -/
theorem c6 (secret : List Nat) :
    (∀ (c : JValue) (m : List (String × String)),
      sign_media_urls_in_content secret c = some m →
      ∀ p ∈ m, (pyStartswith p.1 "http://" || pyStartswith p.1 "https://") = true ∧
        p.2 = sign_media_url secret p.1) ∧
    sign_media_urls_in_content secret
      (.obj [("icon", .obj [("url", .str "https://cdn/a.png")])]) =
      some [("https://cdn/a.png", sign_media_url secret "https://cdn/a.png")] := by
  constructor
  · intro c m hm
    show SMInv secret m
    unfold sign_media_urls_in_content at hm
    repeat' split at hm
    all_goals first
      | exact Option.noConfusion hm
      | (injection hm with hm; subst hm
         repeat first
           | exact smInv_nil _
           | exact addSigned_inv _
           | exact emojiAdd_inv _
           | apply foldl_inv
           | apply addSigned_inv
           | apply emojiAdd_inv)
  · rfl

/-- Witness for `c6` at a concrete secret: the invariant holds on the map
produced by the icon example. -/
theorem c6_witness :
    (∀ p ∈ [("https://cdn/a.png", sign_media_url [] "https://cdn/a.png")],
      (pyStartswith p.1 "http://" || pyStartswith p.1 "https://") = true ∧
        p.2 = sign_media_url [] p.1) ∧
    sign_media_urls_in_content []
      (.obj [("icon", .obj [("url", .str "https://cdn/a.png")])]) =
      some [("https://cdn/a.png", sign_media_url [] "https://cdn/a.png")] := by
  have h := c6 []
  exact ⟨h.1 (.obj [("icon", .obj [("url", .str "https://cdn/a.png")])]) _ h.2, h.2⟩

/-! ## Claim C7 -/

/-- Claim C7 counterexample: on the media object `{"url": [0]}` — an object
with a `url` key — extraction returns the list itself, not a string and not
nothing, because the Python returns `media_obj.get('url')` unchanged
whenever it is truthy and not a dict. -/
theorem c7_counterexample :
    strOrNone (extract_url_from_media_object (.obj [("url", .arr [.num 0])])) = false := by
  rfl

/-- Claim C7 (amended): extraction returns a single string or nothing for
every bare string, every non-object/non-string value, and every object
whose `url`/`href` fields hold only strings, nothing, or nested objects
whose `href` is a string or nothing; for other field shapes the raw field
value is passed through unchanged (callers filter it with `isinstance`). -/
theorem c7_amended (m : JValue)
    (h : ∀ d, m = .obj d → goodField (pyGet d "url") = true ∧
      goodField (pyGet d "href") = true) :
    strOrNone (extract_url_from_media_object m) = true := by
  match m with
  | .str s => rfl
  | .null => rfl
  | .bool b => rfl
  | .num n => rfl
  | .arr l => rfl
  | .obj d =>
    obtain ⟨h1, h2⟩ := h d rfl
    unfold extract_url_from_media_object
    by_cases ht : truthy (pyGet d "url") = true
    · simp only [ht, if_true]
      revert h1
      cases pyGet d "url" <;> simp [goodField, strOrNone]
    · simp only [ht, Bool.false_eq_true, if_false]
      revert h2
      cases pyGet d "href" <;> simp [goodField, strOrNone]

/-- Witness for `c7_amended` on `{"url": "https://x"}`. -/
theorem c7_witness :
    strOrNone (extract_url_from_media_object (.obj [("url", .str "https://x")])) = true :=
  c7_amended (.obj [("url", .str "https://x")])
    (fun d hd => by cases hd; exact ⟨rfl, rfl⟩)

/-! ## Claim C8 -/

theorem findActorHref_nomatch (ls : List JValue) (h : ls.all nonMatchingLink = true) :
    findActorHref ls = some .null := by
  induction ls with
  | nil => rfl
  | cons l ls ih =>
    rw [List.all_cons, Bool.and_eq_true] at h
    obtain ⟨h1, h2⟩ := h
    cases l with
    | obj d =>
      simp only [nonMatchingLink, Bool.not_eq_eq_eq_not, Bool.not_true] at h1
      unfold findActorHref
      simp only [h1, Bool.false_eq_true, if_false]
      exact ih h2
    | null => simp [nonMatchingLink] at h1
    | bool b => simp [nonMatchingLink] at h1
    | num n => simp [nonMatchingLink] at h1
    | str s => simp [nonMatchingLink] at h1
    | arr l2 => simp [nonMatchingLink] at h1

theorem wfFallback_attempted (secret : List Nat) (resource : String) (resF : JFetch)
    (evs : List WEv)
    (h : (pyStartswith resource "http://" || pyStartswith resource "https://") = true) :
    WEv.fallbackGet ∈ (wfFallback secret resource resF evs).2 := by
  unfold wfFallback
  rw [h]
  simp only [if_true]
  repeat' split
  all_goals simp

theorem wfFallback_skipped (secret : List Nat) (resource : String) (resF : JFetch)
    (evs : List WEv)
    (h : (pyStartswith resource "http://" || pyStartswith resource "https://") = false) :
    (wfFallback secret resource resF evs).1 = .error ⟨500, "Failed to fetch webfinger"⟩ ∧
    (wfFallback secret resource resF evs).2 = evs := by
  unfold wfFallback
  rw [h]
  simp

/-- Claim C8 counterexample: a webfinger document is fetched successfully
(status 200, a matching `application/activity+json` link), yet the raw-URL
fallback fetch is still attempted — because the actor fetch at the
discovered href fails with `httpx.HTTPError`, which the same handler
catches.  This refutes "the fallback is attempted exactly when the
Webfinger network call fails". -/
theorem c8_counterexample :
    isHttpFailure (.resp 200 (some (.obj [("links", .arr
      [.obj [("type", .str "application/activity+json"),
             ("href", .str "https://a")]])]))) = false ∧
    (webfinger_resource [] "https://r"
      (.resp 200 (some (.obj [("links", .arr
        [.obj [("type", .str "application/activity+json"),
               ("href", .str "https://a")]])])))
      (fun _ => .transportErr) .transportErr).2 =
      [WEv.wfGet, WEv.actorGet "https://a", WEv.fallbackGet] := by
  exact ⟨rfl, rfl⟩

/-- Claim C8 (amended): part (a) of the claim holds — a successfully
fetched document whose `links` are all dicts without an
`application/activity+json` type fails with the 404 "No ActivityPub actor
found" and never triggers the fallback.  The fallback is attempted when an
`httpx.HTTPError` reaches the handler and the resource starts with
`http(s)://` — which happens both when the webfinger call itself fails
(b1) and when the subsequent actor fetch fails (b3); without the
`http(s)://` prefix the error is re-raised as a 500 and no fallback fetch
happens (b2). -/
theorem c8_amended (secret : List Nat) (resource : String) (wf : JFetch)
    (actorF : String → JFetch) (resF : JFetch) (wfu : String)
    (hok : acctParse resource = .ok wfu) :
    (∀ st wd ls, wf = .resp st (some (.obj wd)) → st < 400 →
      pyGetD wd "links" (.arr []) = .arr ls →
      ls.all nonMatchingLink = true →
      (webfinger_resource secret resource wf actorF resF).1 =
        .error ⟨404, "No ActivityPub actor found"⟩ ∧
      WEv.fallbackGet ∉ (webfinger_resource secret resource wf actorF resF).2) ∧
    (isHttpFailure wf = true →
      (pyStartswith resource "http://" || pyStartswith resource "https://") = true →
      WEv.fallbackGet ∈ (webfinger_resource secret resource wf actorF resF).2) ∧
    (isHttpFailure wf = true →
      (pyStartswith resource "http://" || pyStartswith resource "https://") = false →
      WEv.fallbackGet ∉ (webfinger_resource secret resource wf actorF resF).2 ∧
      (webfinger_resource secret resource wf actorF resF).1 =
        .error ⟨500, "Failed to fetch webfinger"⟩) ∧
    (∀ st wd ls u, wf = .resp st (some (.obj wd)) → st < 400 →
      pyGetD wd "links" (.arr []) = .arr ls →
      findActorHref ls = some (.str u) → u ≠ "" →
      isHttpFailure (actorF u) = true →
      (pyStartswith resource "http://" || pyStartswith resource "https://") = true →
      WEv.fallbackGet ∈ (webfinger_resource secret resource wf actorF resF).2) := by
  refine ⟨?_, ?_, ?_, ?_⟩
  · intro st wd ls hwf hst hlinks hall
    subst hwf
    unfold webfinger_resource
    rw [hok]
    simp only [if_neg (by omega : ¬ 400 ≤ st), hlinks, pyIter,
      findActorHref_nomatch ls hall]
    simp [truthy]
  · intro hfail hstart
    unfold webfinger_resource
    rw [hok]
    cases wf with
    | transportErr => exact wfFallback_attempted secret resource resF _ hstart
    | resp st body =>
      simp only [isHttpFailure] at hfail
      simp only [if_pos (of_decide_eq_true hfail)]
      exact wfFallback_attempted secret resource resF _ hstart
  · intro hfail hstart
    unfold webfinger_resource
    rw [hok]
    cases wf with
    | transportErr =>
      have h := wfFallback_skipped secret resource resF [WEv.wfGet] hstart
      exact ⟨by rw [h.2]; decide, h.1⟩
    | resp st body =>
      simp only [isHttpFailure] at hfail
      simp only [if_pos (of_decide_eq_true hfail)]
      have h := wfFallback_skipped secret resource resF [WEv.wfGet] hstart
      exact ⟨by rw [h.2]; decide, h.1⟩
  · intro st wd ls u hwf hst hlinks hhref hu hafail hstart
    subst hwf
    unfold webfinger_resource
    rw [hok]
    simp only [if_neg (by omega : ¬ 400 ≤ st), hlinks, pyIter, hhref]
    have htr : truthy (.str u) = true := by
      simp [truthy]
      exact hu
    simp only [htr, Bool.not_true, Bool.false_eq_true, if_false]
    cases haf : actorF u with
    | transportErr => exact wfFallback_attempted secret resource resF _ hstart
    | resp st2 b2 =>
      rw [haf] at hafail
      simp only [isHttpFailure] at hafail
      simp only [if_pos (of_decide_eq_true hafail)]
      exact wfFallback_attempted secret resource resF _ hstart

/-- Witness for `c8_amended`: the four behaviours at concrete requests. -/
theorem c8_witness :
    ((webfinger_resource [] "https://r"
        (.resp 200 (some (.obj [("links", .arr [.obj [("type", .str "text/html")]])])))
        (fun _ => .transportErr) .transportErr).1 =
      .error ⟨404, "No ActivityPub actor found"⟩ ∧
     WEv.fallbackGet ∉ (webfinger_resource [] "https://r"
        (.resp 200 (some (.obj [("links", .arr [.obj [("type", .str "text/html")]])])))
        (fun _ => .transportErr) .transportErr).2) ∧
    WEv.fallbackGet ∈ (webfinger_resource [] "https://r" .transportErr
        (fun _ => .transportErr) .transportErr).2 ∧
    (WEv.fallbackGet ∉ (webfinger_resource [] "acct:alice@example.com" .transportErr
        (fun _ => .transportErr) .transportErr).2 ∧
     (webfinger_resource [] "acct:alice@example.com" .transportErr
        (fun _ => .transportErr) .transportErr).1 =
       .error ⟨500, "Failed to fetch webfinger"⟩) ∧
    WEv.fallbackGet ∈ (webfinger_resource [] "https://r"
        (.resp 200 (some (.obj [("links", .arr
          [.obj [("type", .str "application/activity+json"),
                 ("href", .str "https://a")]])])))
        (fun _ => .transportErr) .transportErr).2 := by
  refine ⟨?_, ?_, ?_, ?_⟩
  · exact (c8_amended [] "https://r"
      (.resp 200 (some (.obj [("links", .arr [.obj [("type", .str "text/html")]])])))
      (fun _ => .transportErr) .transportErr
      "https://r/.well-known/webfinger?resource=acct:https://r" (by rfl)).1
      200 _ _ rfl (by decide) rfl (by decide)
  · exact (c8_amended [] "https://r" .transportErr (fun _ => .transportErr) .transportErr
      "https://r/.well-known/webfinger?resource=acct:https://r" (by rfl)).2.1
      rfl (by decide)
  · exact (c8_amended [] "acct:alice@example.com" .transportErr (fun _ => .transportErr)
      .transportErr
      "https://example.com/.well-known/webfinger?resource=acct:alice@example.com"
      (by rfl)).2.2.1 rfl (by decide)
  · exact (c8_amended [] "https://r"
      (.resp 200 (some (.obj [("links", .arr
        [.obj [("type", .str "application/activity+json"),
               ("href", .str "https://a")]])])))
      (fun _ => .transportErr) .transportErr
      "https://r/.well-known/webfinger?resource=acct:https://r" (by rfl)).2.2.2
      200 _ _ "https://a" rfl (by decide) rfl (by rfl) (by decide) rfl (by decide)

/-! ## Claim C9 -/

/-- Claim C9: on a cache miss with a valid signature, a fetched response
that passes the content-type check is always returned to the client, and a
cache entry `(bytes, content_type)` is written under `media:<url>` with the
media TTL exactly when the body is at most 10 MiB — larger bodies leave the
cache unchanged. -/
theorem c9 (secret : List Nat) (url sig : String) (cache : Cache) (ttl : Nat)
    (r : FetchResp)
    (hu : pyStrip url ≠ "") (hs : sig ≠ "")
    (hv : verify_media_signature secret (pyStrip url) sig = some true)
    (hssrf : ssrfCheck (pyStrip url) = none)
    (hmiss : cacheLookup cache ("media:" ++ pyStrip url) = none)
    (hst : r.status < 400)
    (hct : ctAllowed (pyLower (r.ctRaw.getD "")) = true ∨ pyLower (r.ctRaw.getD "") = "") :
    (proxy_media secret url sig cache ttl (.resp r)).cacheAfter =
      (if r.body.length ≤ 10 * 1024 * 1024 then
        cacheSet cache ("media:" ++ pyStrip url) r.body (pyLower (r.ctRaw.getD "")) ttl
      else cache) ∧
    (proxy_media secret url sig cache ttl (.resp r)).res =
      .ok ⟨r.body,
        (if pyLower (r.ctRaw.getD "") == "" then "application/octet-stream"
         else pyLower (r.ctRaw.getD "")), "MISS"⟩ ∧
    (Ev.cacheWrite ∈ (proxy_media secret url sig cache ttl (.resp r)).trace ↔
      r.body.length ≤ 10 * 1024 * 1024) := by
  have hcond : (!ctAllowed (pyLower (r.ctRaw.getD "")) &&
      !(pyLower (r.ctRaw.getD "") == "")) = false := by
    rcases hct with h | h
    · rw [h]; simp
    · rw [h]; simp
  rw [proxy_media_valid_sig secret url sig cache ttl (.resp r) hu hs hv, hssrf]
  show (proxy_serve (pyStrip url) cache ttl (.resp r)).cacheAfter = _ ∧
    (proxy_serve (pyStrip url) cache ttl (.resp r)).res = _ ∧
    (Ev.cacheWrite ∈ (proxy_serve (pyStrip url) cache ttl (.resp r)).trace ↔ _)
  unfold proxy_serve
  rw [hmiss]
  simp only [if_neg (by omega : ¬ 400 ≤ r.status), hcond, Bool.false_eq_true, if_false]
  refine ⟨?_, ?_, ?_⟩
  · split <;> rfl
  · split <;> rfl
  · split <;> simp <;> omega

/-- Witness for `c9`: a small signed image on an empty cache. -/
theorem c9_witness :
    (proxy_media [] "https://example.com/x" (sign_media_url [] "https://example.com/x")
      [] 3600 (.resp ⟨200, some "image/png", [7]⟩)).cacheAfter =
      (if ([7] : List Nat).length ≤ 10 * 1024 * 1024 then
        cacheSet [] ("media:" ++ pyStrip "https://example.com/x") [7]
          (pyLower ((some "image/png").getD "")) 3600
      else []) ∧
    (proxy_media [] "https://example.com/x" (sign_media_url [] "https://example.com/x")
      [] 3600 (.resp ⟨200, some "image/png", [7]⟩)).res =
      .ok ⟨[7],
        (if pyLower ((some "image/png").getD "") == "" then "application/octet-stream"
         else pyLower ((some "image/png").getD "")), "MISS"⟩ ∧
    (Ev.cacheWrite ∈ (proxy_media [] "https://example.com/x"
        (sign_media_url [] "https://example.com/x")
        [] 3600 (.resp ⟨200, some "image/png", [7]⟩)).trace ↔
      ([7] : List Nat).length ≤ 10 * 1024 * 1024) := by
  have hstrip : pyStrip "https://example.com/x" = "https://example.com/x" := by decide
  exact c9 [] "https://example.com/x" (sign_media_url [] "https://example.com/x")
    [] 3600 ⟨200, some "image/png", [7]⟩
    (by decide) (by decide)
    (by rw [hstrip]; exact verify_sign_self [] "https://example.com/x")
    (by rw [hstrip]; decide) (by rw [hstrip]; rfl) (by decide) (Or.inl (by decide))

/-! ## Claim C10 -/

/-- Claim C10 counterexample: the claim says any JSON dict yields a success
response on the `actor_url` path, but `{"tag": 5}` makes
`sign_media_urls_in_content` iterate over the integer `5` — a `TypeError`
that the handler converts into a 500 error, not a success. -/
theorem c10_counterexample :
    webfinger_actor_url [] "https://a" (.resp 200 (some (.obj [("tag", .num 5)]))) =
      .error ⟨500, "An error occurred"⟩ := by
  rfl

/-- Claim C10 (amended): the `actor_url` path projects the fetched JSON
directly — `is_activitypub_content` plays no role, so any dict for which
media signing completes (in particular any dict free of `@context`, `type`
and `id`) yields a success response, with `preferredUsername`/`name`
defaulting to the empty string, `id` defaulting to the actor URL, `tag` to
`[]`, and the icon extracted only when truthy.  (Dicts whose media-bearing
fields make signing raise `TypeError`, such as `{"tag": 5}`, yield a 500
instead.) -/
theorem c10_amended (secret : List Nat) (actor_url : String)
    (d : List (String × JValue)) (p : UrlParts) (sm : List (String × String)) (st : Nat)
    (hst : st < 400)
    (hp : urlparse actor_url = some p)
    (hsm : sign_media_urls_in_content secret (.obj d) = some sm) :
    webfinger_actor_url secret actor_url (.resp st (some (.obj d))) =
      .ok ⟨pyGetD d "preferredUsername" (.str ""), pyGetD d "name" (.str ""),
           pyGetD d "id" (.str actor_url), p.netloc, pyGetD d "tag" (.arr []),
           (if truthy (pyGet d "icon") then extract_url_from_media_object (pyGet d "icon")
            else .null), sm⟩ := by
  simp only [webfinger_actor_url, projectActor, hp, hsm,
    if_neg (by omega : ¬ 400 ≤ st)]

/-- Witness for `c10_amended`: the empty dict — no `@context`, no `type`,
no `id` — still yields a success response with empty-string defaults, even
though the ActivityPub classifier rejects it. -/
theorem c10_witness :
    webfinger_actor_url [] "https://a" (.resp 200 (some (.obj []))) =
      .ok ⟨pyGetD [] "preferredUsername" (.str ""), pyGetD [] "name" (.str ""),
           pyGetD [] "id" (.str "https://a"),
           (⟨"https", "a", some "a"⟩ : UrlParts).netloc, pyGetD [] "tag" (.arr []),
           (if truthy (pyGet [] "icon") then extract_url_from_media_object (pyGet [] "icon")
            else .null), []⟩ :=
  c10_amended [] "https://a" [] ⟨"https", "a", some "a"⟩ [] 200
    (by decide) (by decide) (by rfl)
